import Mathlib

/-!
Verification of the signal-pipeline of the BeckDiscordExtracter repository:
channel gating (src/channel_filter.py), inbound-event parsing
(src/console_interceptor.py and the data model it delegates to), signal
validation, risk gating and order dispatch (src/exchange_client.py), and the
per-event unit of work (src/main.py, ListenerScript._process_message_async).

Pure functions of the source are embedded as Lean functions; the network
calls (create_market_order, load_markets) are parameterized by an explicit
outcome value, and Python exceptions are modelled as outcome constructors.
Monetary amounts (Python floats used only via comparisons) are modelled as
rationals, confidences as integers.
-/

/-- The four risk-gate decisions named by the design document (§4.3). -/
inductive Decision where
  | Approved (amount : ℚ)
  | RejectedLowConfidence
  | RejectedAmountExceeded
  | SkippedReadOnly
deriving DecidableEq, Repr

/-- Connection states of the connector state machine named by the design
document (§4.4). -/
inductive ConnState where
  | Uninitialized
  | Connected
  | Disconnected
  | Reconnecting
deriving DecidableEq, Repr

/-- The order dict returned by CCXT, restricted to the keys the source reads
(src/exchange_client.py, lines 173-175). -/
structure OrderResp where
  id : Option String
  average : Option ℚ
  price : Option ℚ
  filled : Option ℚ
  amount : Option ℚ
deriving DecidableEq, Repr

/-- Outcome of the one awaited `exchange.create_market_order` call inside
`ExchangeClient.place_order` (src/exchange_client.py, lines 163-208): a
successful order dict, or one of the three exception classes the source
catches (`ccxt.NetworkError`, `ccxt.ExchangeError`, any other `Exception`). -/
inductive OrderOutcome where
  | success (order : OrderResp)
  | networkError
  | exchangeError
  | unexpectedError
deriving DecidableEq, Repr

/-- Trading parameters (src/models.py `TradingConfig`, shape pinned by
src/tests/test_models.py, TestTradingConfig). -/
structure TradingConfig where
  confidence_threshold : ℤ
  max_trade_amount_usdt : ℚ
  enabled_exchanges : List String
deriving DecidableEq, Repr

/-- A validated trade signal as consumed by `ExchangeClient.place_order`:
after validation `confidence` is a true integer. -/
structure TradeSignal where
  symbol : String
  side : String
  confidence : ℤ
  summary : String
deriving DecidableEq, Repr

/-- The `ExchangeClient` runtime state used by `place_order`: the set of
initialized exchange names (the keys of `self.exchanges`) and the trading
configuration (src/exchange_client.py, lines 42-43). -/
structure ExchangeClient where
  exchanges : List String
  trading_config : TradingConfig
deriving DecidableEq, Repr

/-- Embedding of Python `str.lower()` as used on exchange names and order
sides (ASCII identifiers), character-wise lowercasing. -/
def pyLower (s : String) : String := ⟨s.data.map Char.toLower⟩

/-- Embedding of Python `str.strip()` with no arguments: remove leading and
trailing whitespace, character-wise over the text. -/
def pyStrip (s : String) : String :=
  ⟨(((s.data.dropWhile Char.isWhitespace).reverse.dropWhile
    Char.isWhitespace).reverse)⟩

/-- Embeds `ExchangeClient._check_confidence` (src/exchange_client.py,
line 93): true iff `signal.confidence >= confidence_threshold`. -/
def check_confidence (tc : TradingConfig) (signal : TradeSignal) : Bool :=
  decide (tc.confidence_threshold ≤ signal.confidence)

/-- Embeds `ExchangeClient._check_amount_limit` (src/exchange_client.py,
line 104): true iff `amount_usdt <= max_trade_amount_usdt`. -/
def check_amount_limit (tc : TradingConfig) (amount_usdt : ℚ) : Bool :=
  decide (amount_usdt ≤ tc.max_trade_amount_usdt)

/-- Embeds the default-amount substitution of `place_order`
(src/exchange_client.py, lines 131-133): a non-positive requested amount is
replaced by `max_trade_amount_usdt`. -/
def defaultedAmount (tc : TradingConfig) (amount_usdt : ℚ) : ℚ :=
  if amount_usdt ≤ 0 then tc.max_trade_amount_usdt else amount_usdt

/-- Result of the pre-submission checks of `place_order`
(src/exchange_client.py, lines 129-159), one constructor per return site. -/
inductive GateResult where
  | notInitialized
  | lowConfidence
  | amountExceeded
  | proceed (eff : ℚ)
deriving DecidableEq, Repr

/-- Embeds lines 129-159 of `ExchangeClient.place_order`: lower-case the
exchange name, substitute the default amount, then check initialization,
confidence and amount limit, in that order. -/
def place_order_gate (client : ExchangeClient) (signal : TradeSignal)
    (exchange_name : String) (amount_usdt : ℚ) : GateResult :=
  let exName := pyLower exchange_name
  let amount := defaultedAmount client.trading_config amount_usdt
  if exName ∈ client.exchanges then
    if check_confidence client.trading_config signal then
      if check_amount_limit client.trading_config amount then
        GateResult.proceed amount
      else GateResult.amountExceeded
    else GateResult.lowConfidence
  else GateResult.notInitialized

/-- Embeds `ExchangeClient._reconnect_exchange` (src/exchange_client.py,
lines 210-232): if the exchange is unknown return false without touching the
network; otherwise make exactly one `load_markets(reload=True)` attempt whose
outcome `loadMarketsOk` determines the returned flag. The second component
counts the `load_markets` calls made. -/
def reconnect_exchange (client : ExchangeClient) (exchange_name : String)
    (loadMarketsOk : Bool) : Bool × Nat :=
  if exchange_name ∈ client.exchanges then (loadMarketsOk, 1) else (false, 0)

/-- Result of a `place_order` call, one constructor per return site of the
source (src/exchange_client.py): the source returns the order dict on success
and `None` at every other site, the constructor records which site. -/
inductive PlaceResult where
  | placed (order : OrderResp)
  | skippedNotInitialized
  | skippedLowConfidence
  | skippedAmountExceeded
  | failedNetwork
  | failedExchange
  | failedUnexpected
deriving DecidableEq, Repr

/-- Observable actions of one `place_order` call: the
`create_market_order` submissions made (symbol, lower-cased side, amount),
the number of `load_markets` recovery calls, and the result of each
`_reconnect_exchange` invocation. -/
structure PlaceTrace where
  submitted : List (String × String × ℚ)
  loadMarketsCalls : Nat
  reconnectResults : List Bool
deriving DecidableEq, Repr

/-- The `Optional[dict]` value `place_order` actually returns to its caller:
the order dict on success, `None` everywhere else (src/exchange_client.py). -/
def PlaceResult.returnValue : PlaceResult → Option OrderResp
  | PlaceResult.placed o => some o
  | _ => none

/-- Embeds `ExchangeClient.place_order` (src/exchange_client.py,
lines 106-208). The submission outcome and the recovery outcome are explicit
parameters; the trace records the network actions performed. On
`ccxt.NetworkError` the source calls `_reconnect_exchange` once and returns
`None` without resubmitting; on `ccxt.ExchangeError` and on any other
exception it returns `None` with no recovery action. -/
def place_order (client : ExchangeClient) (signal : TradeSignal)
    (exchange_name : String) (amount_usdt : ℚ) (outcome : OrderOutcome)
    (loadMarketsOk : Bool) : PlaceResult × PlaceTrace :=
  match place_order_gate client signal exchange_name amount_usdt with
  | GateResult.notInitialized => (PlaceResult.skippedNotInitialized, ⟨[], 0, []⟩)
  | GateResult.lowConfidence => (PlaceResult.skippedLowConfidence, ⟨[], 0, []⟩)
  | GateResult.amountExceeded => (PlaceResult.skippedAmountExceeded, ⟨[], 0, []⟩)
  | GateResult.proceed eff =>
    let call := (signal.symbol, pyLower signal.side, eff)
    match outcome with
    | OrderOutcome.success o => (PlaceResult.placed o, ⟨[call], 0, []⟩)
    | OrderOutcome.networkError =>
      let r := reconnect_exchange client (pyLower exchange_name) loadMarketsOk
      (PlaceResult.failedNetwork, ⟨[call], r.2, [r.1]⟩)
    | OrderOutcome.exchangeError => (PlaceResult.failedExchange, ⟨[call], 0, []⟩)
    | OrderOutcome.unexpectedError => (PlaceResult.failedUnexpected, ⟨[call], 0, []⟩)

/-- Modelled from the spec: the connection-state machine of §4.4. The source
keeps no explicit connection-state field; these are the states the design
document assigns to the phases of one `placeOrder` call as a function of the
submission outcome and the recovery result (a network failure passes through
`Reconnecting` and ends `Connected` or `Disconnected`; every other outcome
leaves the connector `Connected`). -/
def connStatesDuringCall : OrderOutcome → Bool → List ConnState
  | OrderOutcome.networkError, ok =>
    [ConnState.Connected, ConnState.Reconnecting,
      if ok then ConnState.Connected else ConnState.Disconnected]
  | _, _ => [ConnState.Connected]

/-- Reference definition of the risk-gate decision, written from the design
document (§4.3): substitute the default amount, read-only mode takes absolute
priority, then confidence equal to the threshold passes, then amounts above
the maximum are rejected, otherwise the effective amount is approved. -/
def riskGateSpec (signal : TradeSignal) (tc : TradingConfig)
    (isReadOnly : Bool) (amount : ℚ) : Decision :=
  let eff := if amount ≤ 0 then tc.max_trade_amount_usdt else amount
  if isReadOnly then Decision.SkippedReadOnly
  else if signal.confidence < tc.confidence_threshold then
    Decision.RejectedLowConfidence
  else if tc.max_trade_amount_usdt < eff then
    Decision.RejectedAmountExceeded
  else Decision.Approved eff

/-- The risk-gating decision as the source computes it, assembled from its
two places: the read-only check of `ListenerScript._process_message_async`
(src/main.py, line 311) and the pre-submission checks of
`ExchangeClient.place_order` (src/exchange_client.py, lines 129-159).
`none` marks the uninitialized-exchange return site, which is an
availability condition rather than a risk decision. -/
def riskGateCode (client : ExchangeClient) (signal : TradeSignal)
    (isReadOnly : Bool) (exchange_name : String) (amount : ℚ) :
    Option Decision :=
  if isReadOnly then some Decision.SkippedReadOnly
  else
    match place_order_gate client signal exchange_name amount with
    | GateResult.notInitialized => none
    | GateResult.lowConfidence => some Decision.RejectedLowConfidence
    | GateResult.amountExceeded => some Decision.RejectedAmountExceeded
    | GateResult.proceed eff => some (Decision.Approved eff)

/-- The application configuration fields `_process_message_async` reads
(src/models.py `AppConfig`, shape pinned by src/tests/test_models.py,
TestAppConfig). -/
structure AppConfig where
  read_only_mode : Bool
  trading : TradingConfig
deriving DecidableEq, Repr

/-- Outcome of the awaited `self._trading_agent.analyze(message)` call in
`_process_message_async` (src/main.py, line 305): a signal, `None`, or an
exception escaping the analysis step. -/
inductive AnalyzeResult where
  | raises
  | noSignal
  | signal (s : TradeSignal)
deriving DecidableEq, Repr

/-- Outcome of one awaited `place_order` call inside the exchange loop of
`_process_message_async` (src/main.py, lines 320-329): whether the call
raises, and otherwise the submission/recovery outcomes fed to the embedded
`place_order`. -/
structure ExchangeCallBehavior where
  raises : Bool
  outcome : OrderOutcome
  loadMarketsOk : Bool

/-- Embeds the exchange loop of `_process_message_async` (src/main.py,
lines 320-329): for each name in `enabled_exchanges`, in order, call
`place_order` inside a `try`/`except` that logs and continues; `none`
records a call whose exception was caught by the inner handler. The amount
argument is omitted at the call site, so the embedded call receives the
default `0.0`. -/
def runExchangeLoop (client : ExchangeClient) (signal : TradeSignal)
    (behavior : String → ExchangeCallBehavior) :
    List String → List (String × Option PlaceResult)
  | [] => []
  | ex :: rest =>
    let b := behavior ex
    let res : Option PlaceResult :=
      if b.raises then none
      else some (place_order client signal ex 0 b.outcome b.loadMarketsOk).1
    (ex, res) :: runExchangeLoop client signal behavior rest

/-- Observable outcome of one `_process_message_async` unit of work: the
`place_order` calls made (with their results), whether the read-only skip
branch was taken (the log at src/main.py, lines 312-316), and whether the
outer `except Exception` boundary handler fired (src/main.py,
lines 331-333). -/
structure ProcessLog where
  orderAttempts : List (String × Option PlaceResult)
  readOnlySkipLogged : Bool
  caughtAtBoundary : Bool
deriving DecidableEq, Repr

/-- Embeds `ListenerScript._process_message_async` (src/main.py,
lines 294-333): analyze, stop on `None`, stop with a log in read-only mode,
otherwise run the exchange loop; any exception escaping the steps is caught
by the outer `except Exception` handler, logged and discarded. -/
def process_message_async (cfg : AppConfig) (client : ExchangeClient)
    (analyzeRes : AnalyzeResult) (behavior : String → ExchangeCallBehavior) :
    ProcessLog :=
  match analyzeRes with
  | AnalyzeResult.raises => ⟨[], false, true⟩
  | AnalyzeResult.noSignal => ⟨[], false, false⟩
  | AnalyzeResult.signal s =>
    if cfg.read_only_mode then ⟨[], true, false⟩
    else ⟨runExchangeLoop client s behavior cfg.trading.enabled_exchanges,
      false, false⟩

/-- The inbound event record (src/models.py `DiscordMessage`, shape pinned by
src/tests/test_models.py: author, content, timestamp, channel, all
strings). -/
structure DiscordMessage where
  author : String
  content : String
  timestamp : String
  channel : String
deriving DecidableEq, Repr

/-- The channel filter state (src/channel_filter.py, line 29). -/
structure ChannelFilter where
  target_channels : List String
deriving DecidableEq, Repr

/-- Embeds `ChannelFilter.should_process` (src/channel_filter.py,
lines 31-49): an empty target list rejects every channel after a warning;
otherwise Python membership, which is exact string equality against the
configured list. -/
def ChannelFilter.should_process (f : ChannelFilter)
    (channel_name : String) : Bool :=
  if f.target_channels = [] then false
  else f.target_channels.contains channel_name

/-- Embeds `ChannelFilter.filter_message` (src/channel_filter.py,
lines 51-65): the unchanged message when its channel passes
`should_process`, otherwise `None`. -/
def ChannelFilter.filter_message (f : ChannelFilter) (m : DiscordMessage) :
    Option DiscordMessage :=
  if f.should_process m.channel then some m else none

/-- A parsed JSON value, the shape `json.loads` hands to the data model. -/
inductive Json where
  | null
  | bool (b : Bool)
  | num (q : ℚ)
  | str (s : String)
  | arr (elems : List Json)
  | obj (fields : List (String × Json))

/-- First-match key lookup in a JSON object, as Python dict access after
`json.loads` (later duplicates never survive `json.loads`, so first-match is
exact). -/
def jsonLookup : List (String × Json) → String → Option Json
  | [], _ => none
  | (k, v) :: rest, key => if k = key then some v else jsonLookup rest key

/-- A required string field: present and string-typed, else nothing. -/
def jsonStringField (fields : List (String × Json)) (key : String) :
    Option String :=
  match jsonLookup fields key with
  | some (Json.str s) => some s
  | _ => none

/-- Modelled from the spec: `DiscordMessage.from_json` (src/models.py is
absent from the snapshot; §6 of the design document: the record must be a
JSON object carrying the type sentinel `DISCORD_MESSAGE` and the four
required string fields, extra fields are ignored, anything else is silently
dropped). The `Option Json` input models the `json.loads` step: `none` is a
string that fails to parse (malformed JSON, empty string, or `None`
input). -/
def DiscordMessage.from_json (input : Option Json) : Option DiscordMessage :=
  match input with
  | some (Json.obj fields) =>
    match jsonLookup fields "type" with
    | some (Json.str "DISCORD_MESSAGE") =>
      (jsonStringField fields "author").bind fun a =>
        (jsonStringField fields "content").bind fun c =>
          (jsonStringField fields "timestamp").bind fun t =>
            (jsonStringField fields "channel").bind fun ch =>
              some ⟨a, c, t, ch⟩
    | _ => none
  | _ => none

/-- Modelled from the spec: `DiscordMessage.to_json` (src/models.py is absent
from the snapshot; §6 of the design document and
src/tests/test_models.py, TestDiscordMessageToJson: a JSON object with the
type sentinel and the four fields, Unicode carried verbatim —
`ensure_ascii` disabled). -/
def DiscordMessage.to_json (m : DiscordMessage) : Json :=
  Json.obj [("type", Json.str "DISCORD_MESSAGE"), ("author", Json.str m.author),
    ("content", Json.str m.content), ("timestamp", Json.str m.timestamp),
    ("channel", Json.str m.channel)]

/-- A Python value arriving in the `confidence` slot of a signal candidate
before validation: a true integer, a boolean (integer-like in Python but
rejected), a float, a string, or `None`. -/
inductive ConfValue where
  | int (n : ℤ)
  | bool (b : Bool)
  | float (q : ℚ)
  | str (s : String)
  | none
deriving DecidableEq, Repr

/-- Modelled from the spec: the confidence invariant of §4.2 — a true
integer in the closed range 0..100; a boolean is not an accepted integer. -/
def confidenceOk : ConfValue → Bool
  | ConfValue.int n => decide (0 ≤ n ∧ n ≤ 100)
  | _ => false

/-- Modelled from the spec: the side invariant of §4.2 — exactly one of the
two uppercase tokens, case-sensitively. -/
def sideOk (side : String) : Bool :=
  side = "BUY" || side = "SELL"

/-- A signal candidate as constructed from a parsed analysis response,
before validation (`confidence` may hold any Python value). -/
structure TradeSignalCandidate where
  symbol : String
  side : String
  confidence : ConfValue
  summary : String
deriving DecidableEq, Repr

/-- The four violation messages, naming the offending field as the tests
require (src/tests/test_models.py, TestTradeSignalValidate). -/
def sideViolation : String := "side must be BUY or SELL"

/-- Violation message for the confidence check. -/
def confidenceViolation : String :=
  "confidence must be an integer between 0 and 100"

/-- Violation message for the symbol check. -/
def symbolViolation : String := "symbol must be a non-empty string"

/-- Violation message for the summary check. -/
def summaryViolation : String := "summary must be a non-empty string"

/-- Modelled from the spec: `TradeSignal.validate` (src/models.py is absent
from the snapshot; §4.2 of the design document: four independent additive
checks, none short-circuiting, an empty list meaning valid). -/
def TradeSignalCandidate.validate (s : TradeSignalCandidate) : List String :=
  (if sideOk s.side then [] else [sideViolation])
    ++ (if confidenceOk s.confidence then [] else [confidenceViolation])
    ++ (if pyStrip s.symbol = "" then [symbolViolation] else [])
    ++ (if pyStrip s.summary = "" then [summaryViolation] else [])

/-! Helper lemmas shared by several claims. -/

/-- The exchange loop visits exactly the configured names, in order,
whatever the individual call outcomes are. -/
theorem runExchangeLoop_map_fst (client : ExchangeClient)
    (signal : TradeSignal) (behavior : String → ExchangeCallBehavior)
    (exs : List String) :
    (runExchangeLoop client signal behavior exs).map Prod.fst = exs := by
  induction exs with
  | nil => rfl
  | cons e rest ih => simp [runExchangeLoop, ih]

/-- C7: with an empty target set `should_process` rejects every channel;
otherwise it accepts exactly the members of the configured list under exact
string equality; and `filter_message` returns the unchanged message exactly
when its channel passes. -/
theorem channelFilter_gate_correct :
    (∀ ch : String, ChannelFilter.should_process ⟨[]⟩ ch = false)
    ∧ (∀ (f : ChannelFilter) (ch : String), f.target_channels ≠ [] →
        (f.should_process ch = true ↔ ch ∈ f.target_channels))
    ∧ (∀ (f : ChannelFilter) (m : DiscordMessage),
        (f.should_process m.channel = true → f.filter_message m = some m)
        ∧ (f.should_process m.channel = false → f.filter_message m = none)) := by
  refine ⟨fun ch => rfl, fun f ch h => ?_, fun f m =>
    ⟨fun h => ?_, fun h => ?_⟩⟩
  · simp [ChannelFilter.should_process, h, List.contains]
  · simp [ChannelFilter.filter_message, h]
  · simp [ChannelFilter.filter_message, h]

/-- Witness for C7 at the channel sets of the design document (§8). -/
theorem channelFilter_gate_correct_w :
    (ChannelFilter.should_process ⟨["crypto-signals", "trading-alerts"]⟩
        "crypto-signals" = true ↔
      "crypto-signals" ∈ ["crypto-signals", "trading-alerts"])
    ∧ ChannelFilter.should_process ⟨[]⟩ "general" = false := by
  refine ⟨channelFilter_gate_correct.2.1 _ _ (by decide), ?_⟩
  exact channelFilter_gate_correct.1 "general"

/-- C1: when read-only mode is on, a unit of work that received a signal
takes the read-only skip branch, makes zero `place_order` calls, and the
assembled risk-gate decision is `SkippedReadOnly` for every exchange and
amount. -/
theorem readOnly_always_skips (cfg : AppConfig) (client : ExchangeClient)
    (behavior : String → ExchangeCallBehavior) (s : TradeSignal)
    (h : cfg.read_only_mode = true) :
    process_message_async cfg client (AnalyzeResult.signal s) behavior =
      ⟨[], true, false⟩
    ∧ ∀ (ex : String) (amount : ℚ),
        riskGateCode client s true ex amount =
          some Decision.SkippedReadOnly := by
  constructor
  · simp [process_message_async, h]
  · intro ex amount
    rfl

/-- Witness for C1: a high-confidence signal under read-only mode. -/
theorem readOnly_always_skips_w :
    process_message_async ⟨true, ⟨70, 100, ["binance"]⟩⟩
        ⟨["binance"], ⟨70, 100, ["binance"]⟩⟩
        (AnalyzeResult.signal ⟨"BTC/USDT", "BUY", 85, "strong"⟩)
        (fun _ => ⟨false, OrderOutcome.networkError, true⟩) = ⟨[], true, false⟩
    ∧ ∀ (ex : String) (amount : ℚ),
        riskGateCode ⟨["binance"], ⟨70, 100, ["binance"]⟩⟩
          ⟨"BTC/USDT", "BUY", 85, "strong"⟩ true ex amount =
            some Decision.SkippedReadOnly :=
  readOnly_always_skips _ _ _ _ rfl

/-- C4: an exception escaping the analysis step is caught at the
unit-of-work boundary (the outer handler fires, nothing crashes, no orders
attempted); and on the live path the exchange loop attempts every name of
`enabled_exchanges`, in listed order, no matter which calls fail, are
skipped, or raise. -/
theorem unit_of_work_containment (cfg : AppConfig) (client : ExchangeClient)
    (behavior : String → ExchangeCallBehavior) :
    process_message_async cfg client AnalyzeResult.raises behavior =
      ⟨[], false, true⟩
    ∧ ∀ s : TradeSignal, cfg.read_only_mode = false →
        (process_message_async cfg client (AnalyzeResult.signal s)
            behavior).orderAttempts.map Prod.fst =
          cfg.trading.enabled_exchanges
        ∧ (process_message_async cfg client (AnalyzeResult.signal s)
            behavior).caughtAtBoundary = false := by
  refine ⟨rfl, fun s h => ?_⟩
  constructor
  · simp [process_message_async, h, runExchangeLoop_map_fst]
  · simp [process_message_async, h]

/-- Witness for C4: two enabled exchanges, every call raising. -/
theorem unit_of_work_containment_w :
    process_message_async ⟨false, ⟨70, 100, ["binance", "bybit"]⟩⟩
        ⟨["binance"], ⟨70, 100, ["binance", "bybit"]⟩⟩ AnalyzeResult.raises
        (fun _ => ⟨true, OrderOutcome.exchangeError, false⟩) = ⟨[], false, true⟩
    ∧ (process_message_async ⟨false, ⟨70, 100, ["binance", "bybit"]⟩⟩
        ⟨["binance"], ⟨70, 100, ["binance", "bybit"]⟩⟩
        (AnalyzeResult.signal ⟨"BTC/USDT", "BUY", 85, "strong"⟩)
        (fun _ => ⟨true, OrderOutcome.exchangeError, false⟩)).orderAttempts.map
          Prod.fst = ["binance", "bybit"]
    ∧ (process_message_async ⟨false, ⟨70, 100, ["binance", "bybit"]⟩⟩
        ⟨["binance"], ⟨70, 100, ["binance", "bybit"]⟩⟩
        (AnalyzeResult.signal ⟨"BTC/USDT", "BUY", 85, "strong"⟩)
        (fun _ => ⟨true, OrderOutcome.exchangeError, false⟩)).caughtAtBoundary
        = false :=
  have h := unit_of_work_containment ⟨false, ⟨70, 100, ["binance", "bybit"]⟩⟩
    ⟨["binance"], ⟨70, 100, ["binance", "bybit"]⟩⟩
    (fun _ => ⟨true, OrderOutcome.exchangeError, false⟩)
  ⟨h.1, (h.2 ⟨"BTC/USDT", "BUY", 85, "strong"⟩ rfl).1,
    (h.2 ⟨"BTC/USDT", "BUY", 85, "strong"⟩ rfl).2⟩

/-- C2: for an initialized exchange, the decision the source computes (the
read-only check of main.py composed with the checks of place_order) equals
the reference risk-gate definition of the design document. -/
theorem riskGate_refines_spec (client : ExchangeClient) (signal : TradeSignal)
    (isReadOnly : Bool) (exchange_name : String) (amount : ℚ)
    (h : pyLower exchange_name ∈ client.exchanges) :
    riskGateCode client signal isReadOnly exchange_name amount =
      some (riskGateSpec signal client.trading_config isReadOnly amount) := by
  cases isReadOnly with
  | true => rfl
  | false =>
    simp only [riskGateCode, riskGateSpec, place_order_gate, defaultedAmount,
      Bool.false_eq_true, if_false, if_pos h]
    by_cases hc : client.trading_config.confidence_threshold ≤ signal.confidence
    · have hc2 : check_confidence client.trading_config signal = true := by
        simp [check_confidence, hc]
      rw [if_pos hc2, if_neg (not_lt.mpr hc)]
      by_cases ha :
          (if amount ≤ 0 then client.trading_config.max_trade_amount_usdt
            else amount) ≤ client.trading_config.max_trade_amount_usdt
      · have ha2 : check_amount_limit client.trading_config
            (if amount ≤ 0 then client.trading_config.max_trade_amount_usdt
              else amount) = true := by
          simp [check_amount_limit, ha]
        rw [if_pos ha2, if_neg (not_lt.mpr ha)]
      · have ha2 : check_amount_limit client.trading_config
            (if amount ≤ 0 then client.trading_config.max_trade_amount_usdt
              else amount) = false := by
          simp [check_amount_limit, ha]
        rw [if_neg (by simp [ha2]), if_pos (lt_of_not_le ha)]
    · have hc2 : check_confidence client.trading_config signal = false := by
        simp [check_confidence, hc]
      rw [if_neg (by simp [hc2]), if_pos (lt_of_not_le hc)]

/-- Witness for C2: threshold 70, confidence 85, default amount, live
mode, initialized exchange. -/
theorem riskGate_refines_spec_w :
    pyLower "Binance" ∈ (["binance"] : List String)
    ∧ riskGateCode ⟨["binance"], ⟨70, 100, ["binance"]⟩⟩
        ⟨"BTC/USDT", "BUY", 85, "strong"⟩ false "Binance" 0 =
      some (riskGateSpec ⟨"BTC/USDT", "BUY", 85, "strong"⟩
        ⟨70, 100, ["binance"]⟩ false 0) :=
  ⟨by decide, riskGate_refines_spec _ _ _ _ _ (by decide)⟩

/-- C3: a transport failure during submission triggers exactly one recovery
action (one `load_markets` call through `_reconnect_exchange`), the order is
not resubmitted inline (exactly one submission), the call returns the
network-failure outcome whose caller-visible value is `None`, and under the
connection-state machine of the design document the call passes through
`Reconnecting` and ends `Connected` exactly when the recovery succeeded. -/
theorem network_failure_single_recovery (client : ExchangeClient)
    (signal : TradeSignal) (exchange_name : String) (amount : ℚ)
    (lmOk : Bool) (hex : pyLower exchange_name ∈ client.exchanges)
    (hc : check_confidence client.trading_config signal = true)
    (ha : check_amount_limit client.trading_config
      (defaultedAmount client.trading_config amount) = true) :
    place_order client signal exchange_name amount OrderOutcome.networkError
        lmOk =
      (PlaceResult.failedNetwork,
        ⟨[(signal.symbol, pyLower signal.side,
            defaultedAmount client.trading_config amount)], 1, [lmOk]⟩)
    ∧ PlaceResult.failedNetwork.returnValue = none
    ∧ connStatesDuringCall OrderOutcome.networkError lmOk =
        [ConnState.Connected, ConnState.Reconnecting,
          if lmOk then ConnState.Connected else ConnState.Disconnected] := by
  refine ⟨?_, rfl, rfl⟩
  simp [place_order, place_order_gate, hex, hc, ha, reconnect_exchange]

/-- Witness for C3, with a failing recovery. -/
theorem network_failure_single_recovery_w :
    place_order ⟨["binance"], ⟨70, 100, ["binance"]⟩⟩
        ⟨"BTC/USDT", "BUY", 85, "strong"⟩ "binance" 0
        OrderOutcome.networkError false =
      (PlaceResult.failedNetwork, ⟨[("BTC/USDT", "buy", 100)], 1, [false]⟩)
    ∧ PlaceResult.failedNetwork.returnValue = none
    ∧ connStatesDuringCall OrderOutcome.networkError false =
        [ConnState.Connected, ConnState.Reconnecting,
          if false then ConnState.Connected else ConnState.Disconnected] :=
  network_failure_single_recovery _ _ _ _ _ (by decide) (by decide) (by decide)

/-- C5: an exchange-business failure makes no recovery attempt (zero
`load_markets` calls, no `_reconnect_exchange` invocation), the call returns
the exchange-failure outcome whose caller-visible value is `None`, and under
the connection-state machine of the design document the connector stays
`Connected` and never enters `Reconnecting`. -/
theorem exchange_error_stays_connected (client : ExchangeClient)
    (signal : TradeSignal) (exchange_name : String) (amount : ℚ)
    (lmOk : Bool) (hex : pyLower exchange_name ∈ client.exchanges)
    (hc : check_confidence client.trading_config signal = true)
    (ha : check_amount_limit client.trading_config
      (defaultedAmount client.trading_config amount) = true) :
    place_order client signal exchange_name amount OrderOutcome.exchangeError
        lmOk =
      (PlaceResult.failedExchange,
        ⟨[(signal.symbol, pyLower signal.side,
            defaultedAmount client.trading_config amount)], 0, []⟩)
    ∧ PlaceResult.failedExchange.returnValue = none
    ∧ connStatesDuringCall OrderOutcome.exchangeError lmOk =
        [ConnState.Connected] := by
  refine ⟨?_, rfl, rfl⟩
  simp [place_order, place_order_gate, hex, hc, ha]

/-- Witness for C5. -/
theorem exchange_error_stays_connected_w :
    place_order ⟨["binance"], ⟨70, 100, ["binance"]⟩⟩
        ⟨"BTC/USDT", "SELL", 90, "down"⟩ "binance" 50
        OrderOutcome.exchangeError true =
      (PlaceResult.failedExchange, ⟨[("BTC/USDT", "sell", 50)], 0, []⟩)
    ∧ PlaceResult.failedExchange.returnValue = none
    ∧ connStatesDuringCall OrderOutcome.exchangeError true =
        [ConnState.Connected] :=
  exchange_error_stays_connected _ _ _ _ _ (by decide) (by decide) (by decide)

/-- C10: with a non-positive requested amount the effective amount is the
configured maximum, the amount-limit check then always passes, so the
amount-exceeded return site is unreachable: a default-amount call is gated
only by initialization or confidence, otherwise it proceeds with the
maximum. -/
theorem default_amount_never_exceeds (client : ExchangeClient)
    (signal : TradeSignal) (exchange_name : String) (amount : ℚ)
    (h : amount ≤ 0) :
    defaultedAmount client.trading_config amount =
      client.trading_config.max_trade_amount_usdt
    ∧ check_amount_limit client.trading_config
        (defaultedAmount client.trading_config amount) = true
    ∧ place_order_gate client signal exchange_name amount ≠
        GateResult.amountExceeded
    ∧ (place_order_gate client signal exchange_name amount =
          GateResult.notInitialized
        ∨ place_order_gate client signal exchange_name amount =
          GateResult.lowConfidence
        ∨ place_order_gate client signal exchange_name amount =
          GateResult.proceed client.trading_config.max_trade_amount_usdt) := by
  have h1 : defaultedAmount client.trading_config amount =
      client.trading_config.max_trade_amount_usdt := by
    simp [defaultedAmount, h]
  have h2 : check_amount_limit client.trading_config
      (defaultedAmount client.trading_config amount) = true := by
    rw [h1]; simp [check_amount_limit]
  have h2m : check_amount_limit client.trading_config
      client.trading_config.max_trade_amount_usdt = true := by
    simp [check_amount_limit]
  refine ⟨h1, h2, ?_, ?_⟩
  · unfold place_order_gate
    by_cases hm : pyLower exchange_name ∈ client.exchanges <;>
      by_cases hcf : check_confidence client.trading_config signal <;>
      simp [hm, hcf, h1, h2m]
  · unfold place_order_gate
    by_cases hm : pyLower exchange_name ∈ client.exchanges <;>
      by_cases hcf : check_confidence client.trading_config signal <;>
      simp [hm, hcf, h1, h2m]

/-- Witness for C10, at the default call-site amount `0.0`. -/
theorem default_amount_never_exceeds_w :
    defaultedAmount ⟨70, 100, ["binance"]⟩ 0 = 100
    ∧ check_amount_limit ⟨70, 100, ["binance"]⟩
        (defaultedAmount ⟨70, 100, ["binance"]⟩ 0) = true
    ∧ place_order_gate ⟨["binance"], ⟨70, 100, ["binance"]⟩⟩
        ⟨"BTC/USDT", "BUY", 85, "strong"⟩ "binance" 0 ≠
          GateResult.amountExceeded
    ∧ (place_order_gate ⟨["binance"], ⟨70, 100, ["binance"]⟩⟩
          ⟨"BTC/USDT", "BUY", 85, "strong"⟩ "binance" 0 =
            GateResult.notInitialized
        ∨ place_order_gate ⟨["binance"], ⟨70, 100, ["binance"]⟩⟩
          ⟨"BTC/USDT", "BUY", 85, "strong"⟩ "binance" 0 =
            GateResult.lowConfidence
        ∨ place_order_gate ⟨["binance"], ⟨70, 100, ["binance"]⟩⟩
          ⟨"BTC/USDT", "BUY", 85, "strong"⟩ "binance" 0 =
            GateResult.proceed 100) :=
  default_amount_never_exceeds ⟨["binance"], ⟨70, 100, ["binance"]⟩⟩
    ⟨"BTC/USDT", "BUY", 85, "strong"⟩ "binance" 0 (by decide)

/-- C6: the validator checks side, confidence, symbol and summary
independently — a candidate failing all four yields exactly the four
violations; a boolean confidence yields the confidence violation; and the
violation list is empty exactly when all four invariants hold. -/
theorem validator_independent_checks (s : TradeSignalCandidate) :
    (sideOk s.side = false → confidenceOk s.confidence = false →
      pyStrip s.symbol = "" → pyStrip s.summary = "" →
      s.validate = [sideViolation, confidenceViolation, symbolViolation,
        summaryViolation])
    ∧ (∀ b : Bool, s.confidence = ConfValue.bool b →
        confidenceViolation ∈ s.validate)
    ∧ (s.validate = [] ↔ (sideOk s.side = true
        ∧ confidenceOk s.confidence = true
        ∧ pyStrip s.symbol ≠ "" ∧ pyStrip s.summary ≠ "")) := by
  refine ⟨fun h1 h2 h3 h4 => ?_, fun b hb => ?_, ?_⟩
  · simp [TradeSignalCandidate.validate, h1, h2, h3, h4]
  · have hconf : confidenceOk s.confidence = false := by rw [hb]; rfl
    simp [TradeSignalCandidate.validate, hconf]
  · constructor
    · intro h
      by_cases h1 : sideOk s.side <;>
        by_cases h2 : confidenceOk s.confidence <;>
        by_cases h3 : pyStrip s.symbol = "" <;>
        by_cases h4 : pyStrip s.summary = "" <;>
        simp_all [TradeSignalCandidate.validate]
    · rintro ⟨h1, h2, h3, h4⟩
      simp [TradeSignalCandidate.validate, h1, h2, h3, h4]

/-- Witness for C6: the all-invalid candidate of the design document (§8)
and a boolean confidence. -/
theorem validator_independent_checks_w :
    TradeSignalCandidate.validate ⟨"", "HOLD", ConfValue.int 200, ""⟩ =
      [sideViolation, confidenceViolation, symbolViolation, summaryViolation]
    ∧ confidenceViolation ∈
        TradeSignalCandidate.validate
          ⟨"BTC/USDT", "BUY", ConfValue.bool true, "test"⟩ :=
  ⟨(validator_independent_checks _).1 (by decide) (by decide) (by decide)
      (by decide),
    (validator_independent_checks _).2.1 true rfl⟩

/-- C8: deserializing the serialization of any event reproduces it
field-for-field, the serialization carries each text field verbatim (no
escaping or normalization, so non-ASCII text survives exactly), and the
round trip holds at a concrete non-ASCII event from the test suite. -/
theorem message_roundtrip :
    (∀ m : DiscordMessage,
      DiscordMessage.from_json (some m.to_json) = some m)
    ∧ (∀ m : DiscordMessage, m.to_json =
        Json.obj [("type", Json.str "DISCORD_MESSAGE"),
          ("author", Json.str m.author), ("content", Json.str m.content),
          ("timestamp", Json.str m.timestamp),
          ("channel", Json.str m.channel)])
    ∧ DiscordMessage.from_json (some (DiscordMessage.to_json
        ⟨"交易員", "ETH 做空 🚀 目標 3000", "2024-06-01T12:00:00.000Z",
          "幣圈訊號"⟩)) =
      some ⟨"交易員", "ETH 做空 🚀 目標 3000", "2024-06-01T12:00:00.000Z",
        "幣圈訊號"⟩ := by
  refine ⟨fun m => ?_, fun m => rfl, ?_⟩
  · rfl
  · rfl

/-- C9: every malformed inbound payload parses to nothing — unparseable
text (including the empty string and `None` input), non-object JSON (null,
boolean, number, string, array), a missing or wrong type sentinel, and a
missing or non-string required field — with no exception surfaced (the
parser is a total function into an option), while extra unrecognized fields
on an otherwise valid record are ignored. -/
theorem malformed_payloads_dropped :
    DiscordMessage.from_json none = none
    ∧ DiscordMessage.from_json (some Json.null) = none
    ∧ (∀ b, DiscordMessage.from_json (some (Json.bool b)) = none)
    ∧ (∀ q, DiscordMessage.from_json (some (Json.num q)) = none)
    ∧ (∀ s, DiscordMessage.from_json (some (Json.str s)) = none)
    ∧ (∀ xs, DiscordMessage.from_json (some (Json.arr xs)) = none)
    ∧ (∀ fields, jsonLookup fields "type" = none →
        DiscordMessage.from_json (some (Json.obj fields)) = none)
    ∧ (∀ fields s, jsonLookup fields "type" = some (Json.str s) →
        s ≠ "DISCORD_MESSAGE" →
        DiscordMessage.from_json (some (Json.obj fields)) = none)
    ∧ (∀ fields, jsonStringField fields "author" = none →
        DiscordMessage.from_json (some (Json.obj fields)) = none)
    ∧ (∀ fields, jsonStringField fields "content" = none →
        DiscordMessage.from_json (some (Json.obj fields)) = none)
    ∧ (∀ fields, jsonStringField fields "timestamp" = none →
        DiscordMessage.from_json (some (Json.obj fields)) = none)
    ∧ (∀ fields, jsonStringField fields "channel" = none →
        DiscordMessage.from_json (some (Json.obj fields)) = none)
    ∧ DiscordMessage.from_json (some (Json.obj
        [("type", Json.str "DISCORD_MESSAGE"), ("author", Json.str "A"),
          ("content", Json.str "B"), ("timestamp", Json.str "C"),
          ("channel", Json.str "D"), ("extra_field", Json.str "ignored")])) =
      some ⟨"A", "B", "C", "D"⟩ := by
  refine ⟨rfl, rfl, fun b => rfl, fun q => rfl, fun s => rfl, fun xs => rfl,
    ?_, ?_, ?_, ?_, ?_, ?_, rfl⟩
  · intro fields h
    simp only [DiscordMessage.from_json, h]
  · intro fields s h hne
    simp only [DiscordMessage.from_json, h]
    split
    · rename_i heq
      rw [Option.some.injEq, Json.str.injEq] at heq
      exact absurd heq hne
    · rfl
  · intro fields h
    simp only [DiscordMessage.from_json]
    split
    · rw [h, Option.none_bind]
    · rfl
  · intro fields h
    simp only [DiscordMessage.from_json]
    split
    · cases jsonStringField fields "author" with
      | none => rw [Option.none_bind]
      | some a => rw [Option.some_bind, h, Option.none_bind]
    · rfl
  · intro fields h
    simp only [DiscordMessage.from_json]
    split
    · cases jsonStringField fields "author" with
      | none => rw [Option.none_bind]
      | some a =>
        rw [Option.some_bind]
        cases jsonStringField fields "content" with
        | none => rw [Option.none_bind]
        | some c => rw [Option.some_bind, h, Option.none_bind]
    · rfl
  · intro fields h
    simp only [DiscordMessage.from_json]
    split
    · cases jsonStringField fields "author" with
      | none => rw [Option.none_bind]
      | some a =>
        rw [Option.some_bind]
        cases jsonStringField fields "content" with
        | none => rw [Option.none_bind]
        | some c =>
          rw [Option.some_bind]
          cases jsonStringField fields "timestamp" with
          | none => rw [Option.none_bind]
          | some t => rw [Option.some_bind, h, Option.none_bind]
    · rfl

/-- Witness for C9: the malformed payload classes of the test suite at
concrete inputs. -/
theorem malformed_payloads_dropped_w :
    DiscordMessage.from_json (some (Json.arr
        [Json.num 1, Json.num 2, Json.num 3])) = none
    ∧ DiscordMessage.from_json (some (Json.obj
        [("author", Json.str "A"), ("content", Json.str "B"),
          ("timestamp", Json.str "C"), ("channel", Json.str "D")])) = none
    ∧ DiscordMessage.from_json (some (Json.obj
        [("type", Json.str "OTHER_TYPE"), ("author", Json.str "A"),
          ("content", Json.str "B"), ("timestamp", Json.str "C"),
          ("channel", Json.str "D")])) = none
    ∧ DiscordMessage.from_json (some (Json.obj
        [("type", Json.str "DISCORD_MESSAGE"), ("author", Json.num 123),
          ("content", Json.str "B"), ("timestamp", Json.str "C"),
          ("channel", Json.str "D")])) = none
    ∧ DiscordMessage.from_json (some (Json.obj
        [("type", Json.str "DISCORD_MESSAGE"), ("author", Json.str "A"),
          ("content", Json.str "B"), ("timestamp", Json.str "C")])) = none :=
  ⟨malformed_payloads_dropped.2.2.2.2.2.1 _,
    malformed_payloads_dropped.2.2.2.2.2.2.1 _ rfl,
    malformed_payloads_dropped.2.2.2.2.2.2.2.1 _ "OTHER_TYPE" rfl
      (by decide),
    malformed_payloads_dropped.2.2.2.2.2.2.2.2.1 _ rfl,
    malformed_payloads_dropped.2.2.2.2.2.2.2.2.2.2.2.1 _ rfl⟩
